import Mathlib

/-!
# Verification of `src/web/src/components/countryhistorymixgraph.js`

A shallow embedding of the data-transform logic of the country history mix
graph component, together with theorems settling the specification's claims
about it.

JavaScript numbers are modelled by `JNum`: an exact rational, `NaN`, or one of
the two infinities.  A missing object property (`undefined`) only ever enters
this code through arithmetic or `Number.isFinite`, where it behaves exactly
like `NaN`, so lookups of absent keys return `JNum.nan`.  The negative zero of
IEEE arithmetic is collapsed onto `0`, which is harmless here because `-0`
and `0` are `==`-equal, compare identically and divide identically in every
expression this component forms.  Floating-point rounding is idealised to
exact rational arithmetic; none of the claims is about rounding.
-/

/-- A JavaScript number: `NaN`, `Infinity`, `-Infinity`, or a finite value
(idealised as a rational). -/
inductive JNum where
  | nan : JNum
  | inf : JNum
  | ninf : JNum
  | num : ℚ → JNum
deriving DecidableEq, Repr

/-- JavaScript `+` on numbers. -/
def jadd : JNum → JNum → JNum
  | .nan, _ => .nan
  | _, .nan => .nan
  | .inf, .ninf => .nan
  | .ninf, .inf => .nan
  | .inf, _ => .inf
  | _, .inf => .inf
  | .ninf, _ => .ninf
  | _, .ninf => .ninf
  | .num a, .num b => .num (a + b)

/-- JavaScript `*` on numbers. -/
def jmul : JNum → JNum → JNum
  | .nan, _ => .nan
  | _, .nan => .nan
  | .inf, .inf => .inf
  | .inf, .ninf => .ninf
  | .ninf, .inf => .ninf
  | .ninf, .ninf => .inf
  | .inf, .num q => if q = 0 then .nan else if 0 < q then .inf else .ninf
  | .num q, .inf => if q = 0 then .nan else if 0 < q then .inf else .ninf
  | .ninf, .num q => if q = 0 then .nan else if 0 < q then .ninf else .inf
  | .num q, .ninf => if q = 0 then .nan else if 0 < q then .ninf else .inf
  | .num a, .num b => .num (a * b)

/-- JavaScript `/` on numbers (division by zero gives an infinity, `0/0` gives
`NaN`; the sign of zero is collapsed to `+0`). -/
def jdiv : JNum → JNum → JNum
  | .nan, _ => .nan
  | _, .nan => .nan
  | .inf, .inf => .nan
  | .inf, .ninf => .nan
  | .ninf, .inf => .nan
  | .ninf, .ninf => .nan
  | .inf, .num q => if 0 ≤ q then .inf else .ninf
  | .ninf, .num q => if 0 ≤ q then .ninf else .inf
  | .num _, .inf => .num 0
  | .num _, .ninf => .num 0
  | .num a, .num b =>
      if b = 0 then (if a = 0 then .nan else if 0 < a then .inf else .ninf)
      else .num (a / b)

/-- JavaScript `Math.min(0, x)`. -/
def jmin0 : JNum → JNum
  | .nan => .nan
  | .inf => .num 0
  | .ninf => .ninf
  | .num q => .num (min 0 q)

/-- JavaScript `Math.max(0, x)`. -/
def jmax0 : JNum → JNum
  | .nan => .nan
  | .inf => .inf
  | .ninf => .num 0
  | .num q => .num (max 0 q)

/-- JavaScript `Number.isFinite` (no coercion: only actual finite numbers). -/
def jIsFinite : JNum → Bool
  | .num _ => true
  | _ => false

/-- JavaScript `x >= 0` (false for `NaN`). -/
def jge0 : JNum → Bool
  | .nan => false
  | .inf => true
  | .ninf => false
  | .num q => decide (0 ≤ q)

/-- Whether a JavaScript number is strictly negative (`-Infinity` or a negative
finite value); `NaN` is not negative. -/
def jIsNeg : JNum → Bool
  | .ninf => true
  | .num q => decide (q < 0)
  | _ => false

/-- JavaScript `<` on numbers (false whenever either side is `NaN`). -/
def jlt : JNum → JNum → Bool
  | .nan, _ => false
  | _, .nan => false
  | .ninf, .ninf => false
  | .ninf, _ => true
  | _, .ninf => false
  | .inf, _ => false
  | .num _, .inf => true
  | .num a, .num b => decide (a < b)

/-- JavaScript `x != null` for a value that is a number: numbers (`NaN` and the
infinities included) are never loosely equal to `null`, so this is constantly
`true`.  It is kept to mirror the `obj[k] != null` conjunct of the source's
guards, where `obj[k]` has just been assigned a number. -/
def jNeNull (_ : JNum) : Bool := true

/-- One step of `d3-array`'s `max`: a candidate that does not compare to itself
(`NaN`, and `undefined`, both `JNum.nan` here) is skipped; otherwise it
replaces the accumulator when the accumulator is still unset (`JNum.nan`) or
smaller. -/
def jmaxStep (acc v : JNum) : JNum :=
  match v with
  | .nan => acc
  | _ =>
    match acc with
    | .nan => v
    | _ => if jlt acc v then v else acc

/-- `d3-array`'s `max` over a list of numbers; `JNum.nan` plays the role of
the `undefined` result on an empty (or all-`NaN`) input. -/
def d3Max (vs : List JNum) : JNum := vs.foldl jmaxStep .nan

/-- Whether one character list starts with another. -/
def listStartsWith : List Char → List Char → Bool
  | _, [] => true
  | [], _ :: _ => false
  | a :: s, b :: p => (if a = b then true else false) && listStartsWith s p

/-- Whether `pat` occurs as a contiguous substring of `s`; used for the
source's `k.indexOf('storage') !== -1`. -/
def hasSub (s pat : List Char) : Bool :=
  listStartsWith s pat ||
    (match s with
     | [] => false
     | _ :: t => hasSub t pat)

/-- Remove the first occurrence of `pat` from `s` (the rest is kept
unchanged), as JavaScript's `String.prototype.replace(pat, '')` does. -/
def removeFirstSub : List Char → List Char → List Char
  | [], _ => []
  | a :: t, pat =>
      if listStartsWith (a :: t) pat then List.drop pat.length (a :: t)
      else a :: removeFirstSub t pat

/-- The source's `k.indexOf('storage') !== -1`. -/
def isStorage (k : String) : Bool := hasSub k.data "storage".data

/-- The source's `k.replace(' storage', '')`. -/
def stripStorage (k : String) : String := String.mk (removeFirstSub k.data " storage".data)

/-- Modelled from the spec: the fixed category priority order `modeOrder` from
`../helpers/constants`, which is not part of this source tree.  The spec fixes
only its shape: a fixed list of recognized category keys, generation types
followed by storage types, storage keys being the ones containing `storage`
(the examples name `gas` and `battery storage`). -/
def modeOrder : List String :=
  ["wind", "solar", "hydro", "geothermal", "biomass", "nuclear",
   "gas", "coal", "oil", "unknown", "hydro storage", "battery storage"]

/-- Modelled from the spec: the static per-category color table `modeColor`
from `../helpers/constants` (not in this source tree); only its existence as a
map from category key to a color is relied upon. -/
def modeColor (k : String) : String := "color-" ++ k

/-- Modelled from the spec: `getCo2Scale` from `../helpers/scales` (not in
this source tree), a color-blind-aware scale from a carbon intensity to a fill
color. -/
def getCo2Scale (colorBlindModeEnabled : Bool) : JNum → String :=
  fun x => (if colorBlindModeEnabled then "cb-co2-" else "co2-") ++ toString (repr x)

/-- The unit label and normalizing divisor picked by the unit-scale
formatter. -/
structure ScaleFormat where
  unit : String
  formattingFactor : ℚ
deriving DecidableEq, Repr

/-- Modelled from the spec: `formatting.scalePower` from
`../helpers/formatting` (not in this source tree), the external "pick best
power unit and scale factor" collaborator: it returns a unit label such as
kW/MW/GW and the positive divisor normalizing values into that unit. -/
def scalePower (maxValue : JNum) : ScaleFormat :=
  match maxValue with
  | .num q => if q < 1 then ⟨"kW", 1 / 1000⟩ else if q < 1000 then ⟨"MW", 1⟩ else ⟨"GW", 1000⟩
  | _ => ⟨"MW", 1⟩

/-- Modelled from the spec: `getTooltipPosition` from `../helpers/graph` (not
in this source tree), the external tooltip-position helper taking the mobile
flag and the raw pointer position to an anchored display position. -/
def getTooltipPosition (isMobile : Bool) (position : ℚ × ℚ) : ℚ × ℚ :=
  if isMobile then (0, position.2) else position

/-- One time-stamped history observation, as shaped by the API.  The optional
maps may be absent (`d.production || {}` / `d.storage || {}` in the source);
map values are JavaScript numbers, so they can themselves be `NaN`. -/
structure HistoryRecord where
  stateDatetime : String
  production : Option (List (String × JNum))
  storage : Option (List (String × JNum))
  exchange : List (String × JNum)
  productionCo2Intensities : List (String × JNum)
  dischargeCo2Intensities : List (String × JNum)
  exchangeCo2Intensities : List (String × JNum)
  totalProduction : JNum
  totalImport : JNum
  totalDischarge : JNum
  totalCo2Production : JNum
  totalCo2Import : JNum
  totalCo2Discharge : JNum
deriving DecidableEq, Repr

/-- JavaScript property read `obj[k]` on an object modelled as an association
list: an absent key yields `undefined`, which behaves as `NaN` in every use
this code makes of it (arithmetic and `Number.isFinite`). -/
def jlookup : List (String × JNum) → String → JNum
  | [], _ => .nan
  | (a, x) :: t, k => if a = k then x else jlookup t k

/-- Whether an object modelled as an association list has a key. -/
def hasKey : List (String × JNum) → String → Bool
  | [], _ => false
  | (a, _) :: t, k => (if a = k then true else false) || hasKey t k

/-- The per-record power aggregate `d.totalProduction + d.totalImport +
d.totalDischarge` summed in `getValuesInfo`. -/
def recordPowerSum (d : HistoryRecord) : JNum :=
  jadd (jadd d.totalProduction d.totalImport) d.totalDischarge

/-- The per-record emission aggregate `d.totalCo2Production + d.totalCo2Import
+ d.totalCo2Discharge` summed in `getValuesInfo`. -/
def recordCo2Sum (d : HistoryRecord) : JNum :=
  jadd (jadd d.totalCo2Production d.totalCo2Import) d.totalCo2Discharge

/-- The axis label and scale factor derived once per history batch. -/
structure ValuesInfo where
  valueAxisLabel : String
  valueFactor : ℚ
deriving DecidableEq, Repr

/-- `getValuesInfo` of the source (lines 23–34): the peak combined magnitude
over the batch — per-record CO2 sums divided by `1e6` and `60` when displaying
by emissions, power sums otherwise — is fed to `formatting.scalePower`; the
axis label is the fixed `tCO2eq / min` when displaying by emissions and the
formatter's unit otherwise, and the scale factor is the formatter's
`formattingFactor`. -/
def getValuesInfo (historyData : List HistoryRecord) (displayByEmissions : Bool) : ValuesInfo :=
  let maxTotalValue := d3Max (historyData.map (fun d =>
    if displayByEmissions then
      jdiv (jdiv (recordCo2Sum d) (JNum.num 1000000)) (JNum.num 60)
    else
      recordPowerSum d))
  let format := scalePower maxTotalValue
  { valueAxisLabel := if displayByEmissions then "tCO2eq / min" else format.unit
  , valueFactor := format.formattingFactor }

/-- One derived chart datapoint: the `obj` built per record by
`prepareGraphData` — its `datetime` (the parsed `stateDatetime`; date parsing
is external, so the raw string is carried), its numeric layer fields, and the
`meta` back-reference to the source record. -/
structure LayerRecord where
  datetime : String
  fields : String → Option JNum
  meta : HistoryRecord

/-- A layer's fill: either a per-datapoint color function (exchange layers) or
a static category color. -/
inductive LayerFill where
  | perPoint : (LayerRecord → String) → LayerFill
  | colorOf : String → LayerFill

/-- Assignment `obj[k] = v` on the growing datapoint object. -/
def insertField (m : String → Option JNum) (k : String) (v : JNum) : String → Option JNum :=
  fun s => if s = k then some v else m s

/-- The raw `value` computed for a category key `k` (source lines 50–53): for
storage categories `-1 * Math.min(0, (d.storage || {})[k.replace(' storage',
'')])`, otherwise `(d.production || {})[k]`. -/
def modeValue (d : HistoryRecord) (k : String) : JNum :=
  if isStorage k then
    jmul (JNum.num (-1)) (jmin0 (jlookup (d.storage.getD []) (stripStorage k)))
  else
    jlookup (d.production.getD []) k

/-- The final value of category field `k` (source lines 49–64): `value /
valueFactor`, then — when `Number.isFinite(value) && displayByEmissions &&
obj[k] != null` — multiplied by the discharge intensity over `1e3` and `60`
when `isStorage k && obj[k] >= 0`, and by the production intensity over `1e3`
and `60` otherwise. -/
def modeField (displayByEmissions : Bool) (valueFactor : ℚ) (d : HistoryRecord) (k : String) :
    JNum :=
  if jIsFinite (modeValue d k) && displayByEmissions
      && jNeNull (jdiv (modeValue d k) (JNum.num valueFactor)) then
    if isStorage k && jge0 (jdiv (modeValue d k) (JNum.num valueFactor)) then
      jmul (jdiv (modeValue d k) (JNum.num valueFactor))
        (jdiv (jdiv (jlookup d.dischargeCo2Intensities (stripStorage k)) (JNum.num 1000))
          (JNum.num 60))
    else
      jmul (jdiv (modeValue d k) (JNum.num valueFactor))
        (jdiv (jdiv (jlookup d.productionCo2Intensities k) (JNum.num 1000)) (JNum.num 60))
  else jdiv (modeValue d k) (JNum.num valueFactor)

/-- The final value of exchange field `key` (source lines 67–74):
`Math.max(0, value / valueFactor)`, then — when `Number.isFinite(value) &&
displayByEmissions && obj[key] != null` — multiplied by the exchange intensity
over `1e3` and `60`. -/
def exchangeField (displayByEmissions : Bool) (valueFactor : ℚ) (d : HistoryRecord) (key : String)
    (value : JNum) : JNum :=
  if jIsFinite value && displayByEmissions
      && jNeNull (jmax0 (jdiv value (JNum.num valueFactor))) then
    jmul (jmax0 (jdiv value (JNum.num valueFactor)))
      (jdiv (jdiv (jlookup d.exchangeCo2Intensities key) (JNum.num 1000)) (JNum.num 60))
  else jmax0 (jdiv value (JNum.num valueFactor))

/-- The numeric fields of the datapoint built for one record: every key of
`modeOrder` is assigned in order, then — only in `consumption` mode — one
field per key of `d.exchange` in object order (lodash `forEach`), later
assignments overwriting earlier ones. -/
def buildFields (displayByEmissions : Bool) (electricityMixMode : String) (valueFactor : ℚ)
    (d : HistoryRecord) : String → Option JNum :=
  if electricityMixMode = "consumption" then
    d.exchange.foldl
      (fun m kv => insertField m kv.1 (exchangeField displayByEmissions valueFactor d kv.1 kv.2))
      (modeOrder.foldl
        (fun m k => insertField m k (modeField displayByEmissions valueFactor d k))
        (fun _ => none))
  else
    modeOrder.foldl
      (fun m k => insertField m k (modeField displayByEmissions valueFactor d k))
      (fun _ => none)

/-- The datapoint built for one history record (source lines 44–79). -/
def buildLayerRecord (displayByEmissions : Bool) (electricityMixMode : String) (valueFactor : ℚ)
    (d : HistoryRecord) : LayerRecord :=
  { datetime := d.stateDatetime
  , fields := buildFields displayByEmissions electricityMixMode valueFactor d
  , meta := d }

/-- `layerFill` of the source (lines 84–91): exchange layers get a
per-datapoint color from the record's exchange intensity through the CO2
color scale, other layers the static `modeColor`. -/
def layerFillFun (colorBlindModeEnabled : Bool) (exchangeKeys : List String) :
    String → LayerFill :=
  fun key =>
    if key ∈ exchangeKeys then
      LayerFill.perPoint
        (fun p => getCo2Scale colorBlindModeEnabled (jlookup p.meta.exchangeCo2Intensities key))
    else
      LayerFill.colorOf (modeColor key)

/-- The full result of `prepareGraphData` on a non-empty batch. -/
structure GraphData where
  data : List LayerRecord
  layerKeys : List String
  layerFill : String → LayerFill
  valueAxisLabel : String

/-- `prepareGraphData` of the source (lines 36–99); the `{}` returned for an
empty or absent batch is `none`. -/
def prepareGraphData (historyData : List HistoryRecord) (colorBlindModeEnabled : Bool)
    (displayByEmissions : Bool) (electricityMixMode : String) (exchangeKeys : List String) :
    Option GraphData :=
  if historyData.isEmpty then none
  else
    let vi := getValuesInfo historyData displayByEmissions
    some
      { data := historyData.map
          (buildLayerRecord displayByEmissions electricityMixMode vi.valueFactor)
      , layerKeys := modeOrder ++ exchangeKeys
      , layerFill := layerFillFun colorBlindModeEnabled exchangeKeys
      , valueAxisLabel := vi.valueAxisLabel }

/-- Test-harness accessor: the value of field `k` on the `i`-th datapoint of
`prepareGraphData`'s output (`none` when the batch was empty or the index out
of range; `some none` when the datapoint exists but has no field `k`). -/
def outputField (historyData : List HistoryRecord) (colorBlindModeEnabled : Bool)
    (displayByEmissions : Bool) (electricityMixMode : String) (exchangeKeys : List String)
    (i : ℕ) (k : String) : Option (Option JNum) :=
  (prepareGraphData historyData colorBlindModeEnabled displayByEmissions electricityMixMode
      exchangeKeys).bind
    (fun res => (res.data[i]?).map (fun r => r.fields k))

/-- The payload of the tooltip local state set by `markerUpdateHandler`
(source lines 166–175): the hovered layer key, the anchored position, and the
back-referenced source record. -/
structure Tooltip where
  mode : String
  position : ℚ × ℚ
  zoneData : HistoryRecord
deriving DecidableEq

/-- The component's local and dispatched state touched by the interaction
handlers: the tooltip (`useState(null)`), the selected layer index
(`useState(null)`), and the `selectedZoneTimeIndex` written to the global
store through `dispatchApplication`. -/
structure ComponentState where
  tooltip : Option Tooltip
  selectedLayerIndex : Option ℕ
  selectedZoneTimeIndex : Option ℕ
deriving DecidableEq

/-- The interaction callbacks the chart collaborator can invoke (source lines
139–181). -/
inductive GraphEvent where
  | backgroundMouseMove (timeIndex : ℕ)
  | backgroundMouseOut
  | layerMouseMove (timeIndex : ℕ) (layerIndex : ℕ)
  | layerMouseOut
  | markerUpdate (position : ℚ × ℚ) (datapoint : LayerRecord) (layerKey : String)
  | markerHide

/-- Both `useState(null)` hooks start at `null`; no time index is selected. -/
def initialComponentState : ComponentState :=
  { tooltip := none, selectedLayerIndex := none, selectedZoneTimeIndex := none }

/-- The event handlers of the source (lines 139–181), as a step function on
the component state: background hover publishes (or clears) the selected time
index; layer hover additionally records (or clears) the hovered layer index;
`markerUpdateHandler` stores the tooltip payload and `markerHideHandler`
clears it.  No handler touches any other piece of state. -/
def handleEvent (isMobile : Bool) (s : ComponentState) (e : GraphEvent) : ComponentState :=
  match e with
  | .backgroundMouseMove timeIndex => { s with selectedZoneTimeIndex := some timeIndex }
  | .backgroundMouseOut => { s with selectedZoneTimeIndex := none }
  | .layerMouseMove timeIndex layerIndex =>
      { s with selectedZoneTimeIndex := some timeIndex, selectedLayerIndex := some layerIndex }
  | .layerMouseOut => { s with selectedZoneTimeIndex := none, selectedLayerIndex := none }
  | .markerUpdate position datapoint layerKey =>
      { s with tooltip := some ({ mode := layerKey
                                , position := getTooltipPosition isMobile position
                                , zoneData := datapoint.meta } : Tooltip) }
  | .markerHide => { s with tooltip := none }

/-- Spec-side restatement of claim C1's category rule, in the claim's own
words: the raw value (negated-and-floored-at-zero for storage categories,
read directly for generation categories) divided by the scale factor and,
when emissions display is active with the raw value finite, further
multiplied by the applicable carbon intensity over `1000` and `60` — the
discharge-intensity table for storage categories, the production-intensity
table for generation categories. -/
def specCategoryField (displayByEmissions : Bool) (valueFactor : ℚ) (d : HistoryRecord)
    (k : String) : JNum :=
  if displayByEmissions && jIsFinite (modeValue d k) then
    jmul (jdiv (modeValue d k) (JNum.num valueFactor))
      (jdiv (jdiv
        (if isStorage k then jlookup d.dischargeCo2Intensities (stripStorage k)
         else jlookup d.productionCo2Intensities k) (JNum.num 1000)) (JNum.num 60))
  else jdiv (modeValue d k) (JNum.num valueFactor)

/-- Spec-side restatement of claim C1's exchange rule, in the claim's own
words: the raw exchange value floored at zero, divided by the scale factor
and, when emissions display is active with the raw value finite, further
multiplied by the exchange-partner intensity over `1000` and `60`. -/
def specExchangeField (displayByEmissions : Bool) (valueFactor : ℚ) (d : HistoryRecord)
    (key : String) (value : JNum) : JNum :=
  if displayByEmissions && jIsFinite value then
    jmul (jdiv (jmax0 value) (JNum.num valueFactor))
      (jdiv (jdiv (jlookup d.exchangeCo2Intensities key) (JNum.num 1000)) (JNum.num 60))
  else jdiv (jmax0 value) (JNum.num valueFactor)

/-- The carbon-intensity table entry the spec declares applicable to category
`k`: the discharge table for storage categories, the production table for
generation categories. -/
def categoryIntensity (d : HistoryRecord) (k : String) : JNum :=
  if isStorage k then jlookup d.dischargeCo2Intensities (stripStorage k)
  else jlookup d.productionCo2Intensities k

/-- Fixture: the record of claim C2's first example — `production.gas = 100`,
`storage.battery = -40`, `exchange.US = 30`, with aggregate totals summing to
`130` so that the modelled unit formatter yields a scale factor of `1`. -/
def sampleChargeRecord : HistoryRecord :=
  { stateDatetime := "2020-01-01T00:00:00Z"
  , production := some [("gas", JNum.num 100)]
  , storage := some [("battery", JNum.num (-40))]
  , exchange := [("US", JNum.num 30)]
  , productionCo2Intensities := [("gas", JNum.num 490)]
  , dischargeCo2Intensities := [("battery", JNum.num 200)]
  , exchangeCo2Intensities := [("US", JNum.num 300)]
  , totalProduction := JNum.num 130
  , totalImport := JNum.num 0
  , totalDischarge := JNum.num 0
  , totalCo2Production := JNum.num 6000000000
  , totalCo2Import := JNum.num 0
  , totalCo2Discharge := JNum.num 0 }

/-- Fixture: the record of claim C2's second example, identical but with
`storage.battery = +40`. -/
def sampleDischargeRecord : HistoryRecord :=
  { sampleChargeRecord with storage := some [("battery", JNum.num 40)] }

/-- Fixture: a record with a finite `production.gas` but empty intensity
tables, `exchange.US = 30` with no exchange intensity, an `exchange.NO` entry
that is `NaN`, and no `production.coal` entry; the CO2 aggregate totals are
chosen so the emissions-mode scale factor is `1`. -/
def missingIntensityRecord : HistoryRecord :=
  { stateDatetime := "2020-01-01T01:00:00Z"
  , production := some [("gas", JNum.num 100)]
  , storage := none
  , exchange := [("US", JNum.num 30), ("NO", JNum.nan)]
  , productionCo2Intensities := []
  , dischargeCo2Intensities := []
  , exchangeCo2Intensities := []
  , totalProduction := JNum.num 130
  , totalImport := JNum.num 0
  , totalDischarge := JNum.num 0
  , totalCo2Production := JNum.num 6000000000
  , totalCo2Import := JNum.num 0
  , totalCo2Discharge := JNum.num 0 }

/-- Fixture batch around `sampleChargeRecord`. -/
def sampleChargeHistory : List HistoryRecord := [sampleChargeRecord]

/-- Fixture batch around `sampleDischargeRecord`. -/
def sampleDischargeHistory : List HistoryRecord := [sampleDischargeRecord]

/-- Fixture batch around `missingIntensityRecord`. -/
def missingIntensityHistory : List HistoryRecord := [missingIntensityRecord]

/-- The modelled unit formatter always returns a positive divisor. -/
lemma scalePower_pos (x : JNum) : 0 < (scalePower x).formattingFactor := by
  cases x <;> simp only [scalePower] <;> try norm_num
  split_ifs <;> norm_num

/-- The scale factor computed by `getValuesInfo` is positive. -/
lemma getValuesInfo_factor_pos (h : List HistoryRecord) (dbe : Bool) :
    0 < (getValuesInfo h dbe).valueFactor := by
  simp only [getValuesInfo]
  exact scalePower_pos _

/-- A fold of keyed assignments leaves a key it never assigns unchanged. -/
lemma foldl_insert_keyed_not_mem (F : String → JNum) (l : List String) :
    ∀ (m : String → Option JNum) (k : String), k ∉ l →
      l.foldl (fun m' k' => insertField m' k' (F k')) m k = m k := by
  induction l with
  | nil => intro m k _; rfl
  | cons a t ih =>
      intro m k hk
      rw [List.foldl_cons, ih _ k (fun hmem => hk (List.mem_cons_of_mem a hmem))]
      have hka : ¬(k = a) := fun hh => hk (hh ▸ List.mem_cons_self a t)
      simp [insertField, hka]

/-- A fold of keyed assignments whose value depends only on the key sets every
assigned key to its value. -/
lemma foldl_insert_keyed_mem (F : String → JNum) (l : List String) :
    ∀ (m : String → Option JNum) (k : String), k ∈ l →
      l.foldl (fun m' k' => insertField m' k' (F k')) m k = some (F k) := by
  induction l with
  | nil => intro m k hk; exact absurd hk (List.not_mem_nil k)
  | cons a t ih =>
      intro m k hk
      rw [List.foldl_cons]
      by_cases hkt : k ∈ t
      · exact ih _ k hkt
      · have hka : k = a := by
          rcases List.mem_cons.mp hk with hh | hh
          · exact hh
          · exact absurd hh hkt
        subst hka
        rw [foldl_insert_keyed_not_mem F t _ k hkt]
        simp [insertField]

/-- A fold of pairwise assignments leaves a key it never assigns unchanged. -/
lemma foldl_insert_pairs_not_mem (G : String → JNum → JNum) (l : List (String × JNum)) :
    ∀ (m : String → Option JNum) (k : String), k ∉ l.map Prod.fst →
      l.foldl (fun m' kv => insertField m' kv.1 (G kv.1 kv.2)) m k = m k := by
  induction l with
  | nil => intro m k _; rfl
  | cons p t ih =>
      intro m k hk
      have h1 : k ∉ t.map Prod.fst := fun hmem => hk (by simp [hmem])
      have hka : ¬(k = p.1) := fun hh => hk (by simp [hh])
      rw [List.foldl_cons, ih _ k h1]
      simp [insertField, hka]

/-- A fold of pairwise assignments over a list with pairwise-distinct keys
sets every listed key to the value computed from its pair. -/
lemma foldl_insert_pairs_mem (G : String → JNum → JNum) (l : List (String × JNum)) :
    ∀ (m : String → Option JNum) (k : String) (v : JNum), (k, v) ∈ l →
      (l.map Prod.fst).Nodup →
      l.foldl (fun m' kv => insertField m' kv.1 (G kv.1 kv.2)) m k = some (G k v) := by
  induction l with
  | nil => intro m k v hk _; exact absurd hk (List.not_mem_nil _)
  | cons p t ih =>
      intro m k v hkv hnd
      rw [List.map_cons, List.nodup_cons] at hnd
      rw [List.foldl_cons]
      rcases List.mem_cons.mp hkv with hh | hh
      · have hk1 : k = p.1 := congrArg Prod.fst hh
        have hv : v = p.2 := congrArg Prod.snd hh
        have hknt : k ∉ t.map Prod.fst := by rw [hk1]; exact hnd.1
        rw [foldl_insert_pairs_not_mem G t _ k hknt]
        simp [insertField, hk1, hv]
      · exact ih _ k v hh hnd.2

/-- A category key of `modeOrder` that is not overwritten by an exchange field
ends up holding its `modeField` value. -/
lemma buildFields_mode_eq (dbe : Bool) (mode : String) (vf : ℚ) (d : HistoryRecord) (k : String)
    (hk : k ∈ modeOrder) (hnx : mode = "consumption" → k ∉ d.exchange.map Prod.fst) :
    buildFields dbe mode vf d k = some (modeField dbe vf d k) := by
  unfold buildFields
  by_cases hm : mode = "consumption"
  · rw [if_pos hm, foldl_insert_pairs_not_mem _ _ _ _ (hnx hm)]
    exact foldl_insert_keyed_mem _ _ _ _ hk
  · rw [if_neg hm]
    exact foldl_insert_keyed_mem _ _ _ _ hk

/-- In `consumption` mode an exchange key with pairwise-distinct exchange keys
ends up holding its `exchangeField` value. -/
lemma buildFields_exchange_eq (dbe : Bool) (vf : ℚ) (d : HistoryRecord) (k : String) (v : JNum)
    (hkv : (k, v) ∈ d.exchange) (hnd : (d.exchange.map Prod.fst).Nodup) :
    buildFields dbe "consumption" vf d k = some (exchangeField dbe vf d k v) := by
  unfold buildFields
  rw [if_pos rfl]
  exact foldl_insert_pairs_mem _ _ _ _ _ hkv hnd

/-- A key that is neither a category nor (in `consumption` mode) an exchange
key is absent from the built fields. -/
lemma buildFields_none (dbe : Bool) (mode : String) (vf : ℚ) (d : HistoryRecord) (k : String)
    (hk : k ∉ modeOrder) (hnx : mode = "consumption" → k ∉ d.exchange.map Prod.fst) :
    buildFields dbe mode vf d k = none := by
  unfold buildFields
  by_cases hm : mode = "consumption"
  · rw [if_pos hm, foldl_insert_pairs_not_mem _ _ _ _ (hnx hm),
      foldl_insert_keyed_not_mem _ _ _ _ hk]
  · rw [if_neg hm, foldl_insert_keyed_not_mem _ _ _ _ hk]

/-- Reading field `k` of the `i`-th output datapoint gives exactly the built
field of the `i`-th input record. -/
lemma outputField_eq (h : List HistoryRecord) (cb dbe : Bool) (mode : String) (xk : List String)
    (i : ℕ) (k : String) (d : HistoryRecord) (hd : h[i]? = some d) :
    outputField h cb dbe mode xk i k
      = some (buildFields dbe mode (getValuesInfo h dbe).valueFactor d k) := by
  cases h with
  | nil => simp at hd
  | cons a t =>
      unfold outputField prepareGraphData
      simp only [List.isEmpty_cons, Bool.false_eq_true, if_false, Option.some_bind,
        List.getElem?_map, hd, Option.map_some']
      rfl

/-- For a storage category with a finite raw value, the normalized value is
`>= 0` whenever the scale factor is positive — so the source's
`isStorage k && obj[k] >= 0` test always selects the discharge-intensity
table for finite storage values. -/
lemma storage_v0_nonneg (d : HistoryRecord) (k : String) (vf : ℚ) (hvf : 0 < vf)
    (hs : isStorage k = true) (hf : jIsFinite (modeValue d k) = true) :
    jge0 (jdiv (modeValue d k) (JNum.num vf)) = true := by
  have hvf0 : vf ≠ 0 := ne_of_gt hvf
  unfold modeValue at hf ⊢
  rw [if_pos hs] at hf ⊢
  cases hx : jlookup (d.storage.getD []) (stripStorage k) with
  | nan => rw [hx] at hf; simp [jmin0, jmul, jIsFinite] at hf
  | ninf => rw [hx] at hf; norm_num [jmin0, jmul, jIsFinite] at hf
  | inf =>
      simp only [jmin0, jmul, jdiv, hvf0, if_false, jge0, decide_eq_true_eq]
      norm_num
  | num q =>
      simp only [jmin0, jmul, jdiv, hvf0, if_false, jge0, decide_eq_true_eq]
      have hq : min 0 q ≤ 0 := min_le_left 0 q
      apply div_nonneg _ (le_of_lt hvf)
      nlinarith

/-- When the scale factor is positive, the source's category-field computation
agrees with the claim's restatement of it. -/
lemma modeField_eq_specCategoryField (dbe : Bool) (vf : ℚ) (hvf : 0 < vf) (d : HistoryRecord)
    (k : String) : modeField dbe vf d k = specCategoryField dbe vf d k := by
  unfold modeField specCategoryField
  simp only [jNeNull, Bool.and_true]
  rw [Bool.and_comm (jIsFinite (modeValue d k)) dbe]
  cases hg : (dbe && jIsFinite (modeValue d k)) with
  | false => simp only [Bool.false_eq_true, if_false]
  | true =>
      obtain ⟨hdbe, hf⟩ : dbe = true ∧ jIsFinite (modeValue d k) = true := by simpa using hg
      simp only [if_true]
      cases hs : isStorage k with
      | false => simp [hs]
      | true =>
          have hge := storage_v0_nonneg d k vf hvf hs hf
          simp [hs, hge]

/-- Flooring at zero commutes with dividing by a positive scale factor. -/
lemma jmax0_jdiv_comm (v : JNum) (vf : ℚ) (hvf : 0 < vf) :
    jmax0 (jdiv v (JNum.num vf)) = jdiv (jmax0 v) (JNum.num vf) := by
  have hvf0 : vf ≠ 0 := ne_of_gt hvf
  have hvfn : 0 ≤ vf := le_of_lt hvf
  cases v with
  | nan => simp [jdiv, jmax0]
  | inf => simp [jdiv, jmax0, hvfn]
  | ninf =>
      simp only [jdiv, jmax0, if_pos hvfn, hvf0, if_false]
      norm_num
  | num q =>
      simp only [jdiv, jmax0, hvf0, if_false]
      congr 1
      rcases le_or_lt q 0 with hq | hq
      · rw [max_eq_left hq, max_eq_left (by exact div_nonpos_of_nonpos_of_nonneg hq hvfn)]
        norm_num
      · rw [max_eq_right (le_of_lt hq), max_eq_right (le_of_lt (div_pos hq hvf))]

/-- When the scale factor is positive, the source's exchange-field computation
agrees with the claim's restatement of it (floor at zero, then divide). -/
lemma exchangeField_eq_specExchangeField (dbe : Bool) (vf : ℚ) (hvf : 0 < vf)
    (d : HistoryRecord) (k : String) (v : JNum) :
    exchangeField dbe vf d k v = specExchangeField dbe vf d k v := by
  unfold exchangeField specExchangeField
  simp only [jNeNull, Bool.and_true]
  rw [Bool.and_comm (jIsFinite v) dbe, jmax0_jdiv_comm v vf hvf]

/-- The exchange field is never a negative number when the scale factor is
positive and — in emissions display — the partner's intensity is not negative:
the pre-conversion value is floored at zero, and the conversion multiplies two
non-negative quantities (or produces `NaN`/`Infinity`, which are not
negative). -/
lemma exchangeField_not_neg (dbe : Bool) (vf : ℚ) (hvf : 0 < vf) (d : HistoryRecord)
    (k : String) (v : JNum)
    (hci : dbe = true → jIsNeg (jlookup d.exchangeCo2Intensities k) = false) :
    jIsNeg (exchangeField dbe vf d k v) = false := by
  have hvf0 : vf ≠ 0 := ne_of_gt hvf
  have hvfn : (0:ℚ) ≤ vf := le_of_lt hvf
  unfold exchangeField
  simp only [jNeNull, Bool.and_true]
  cases v with
  | nan => simp [jIsFinite, jdiv, jmax0, jIsNeg]
  | inf => simp [jIsFinite, jdiv, jmax0, jIsNeg, hvfn]
  | ninf => simp [jIsFinite, jdiv, jmax0, jIsNeg, hvfn]
  | num q =>
      have hm : (0:ℚ) ≤ max 0 (q / vf) := le_max_left 0 (q / vf)
      cases dbe with
      | false => simp [jIsFinite, jdiv, jmax0, jIsNeg, hvf0, not_lt.mpr hm]
      | true =>
          have hC := hci rfl
          have h1000 : (0:ℚ) ≤ 1000 := by norm_num
          have h60 : (0:ℚ) ≤ 60 := by norm_num
          have h1000n : ((1000:ℚ)) ≠ 0 := by norm_num
          have h60n : ((60:ℚ)) ≠ 0 := by norm_num
          cases hc : jlookup d.exchangeCo2Intensities k with
          | nan => simp [jIsFinite, jdiv, jmax0, jmul, jIsNeg, hvf0]
          | inf =>
              rcases eq_or_lt_of_le hm with h0 | h0
              · simp [jIsFinite, jdiv, jmax0, jmul, jIsNeg, hvf0, h1000, h60, ← h0]
              · simp [jIsFinite, jdiv, jmax0, jmul, jIsNeg, hvf0, h1000, h60, h0.ne', h0]
          | ninf => rw [hc] at hC; simp [jIsNeg] at hC
          | num c =>
              rw [hc] at hC
              simp only [jIsNeg, decide_eq_false_iff_not, not_lt] at hC
              have hc60 : (0:ℚ) ≤ c / 1000 / 60 :=
                div_nonneg (div_nonneg hC (by norm_num)) (by norm_num)
              have hprod : (0:ℚ) ≤ max 0 (q / vf) * (c / 1000 / 60) := mul_nonneg hm hc60
              simp [jIsFinite, jdiv, jmax0, jmul, jIsNeg, hvf0, h1000n, h60n,
                not_lt.mpr hprod]

/-- Dividing by `1e6` and `60` commutes with one `d3`-max step. -/
lemma jmaxStep_div_comm (a v : JNum) :
    jdiv (jdiv (jmaxStep a v) (JNum.num 1000000)) (JNum.num 60)
      = jmaxStep (jdiv (jdiv a (JNum.num 1000000)) (JNum.num 60))
          (jdiv (jdiv v (JNum.num 1000000)) (JNum.num 60)) := by
  have h6 : ((1000000:ℚ)) ≠ 0 := by norm_num
  have h60 : ((60:ℚ)) ≠ 0 := by norm_num
  have h6n : (0:ℚ) ≤ 1000000 := by norm_num
  have h60n : (0:ℚ) ≤ 60 := by norm_num
  have key : ∀ x y : ℚ, (x / 1000000 / 60 < y / 1000000 / 60) ↔ (x < y) := by
    intro x y
    rw [div_div, div_div]
    exact div_lt_div_iff_of_pos_right (by norm_num)
  cases a <;> cases v <;>
    (simp [jmaxStep, jdiv, jlt, h6, h60, h6n, h60n, key]
     try split_ifs <;> simp [jdiv, h6, h60])

/-- Dividing by `1e6` and `60` commutes with the whole `d3`-max fold. -/
lemma foldl_jmaxStep_div_comm (l : List JNum) :
    ∀ acc, (l.map (fun x => jdiv (jdiv x (JNum.num 1000000)) (JNum.num 60))).foldl jmaxStep
        (jdiv (jdiv acc (JNum.num 1000000)) (JNum.num 60))
      = jdiv (jdiv (l.foldl jmaxStep acc) (JNum.num 1000000)) (JNum.num 60) := by
  induction l with
  | nil => intro acc; simp
  | cons x t ih =>
      intro acc
      rw [List.map_cons, List.foldl_cons, List.foldl_cons, ← jmaxStep_div_comm, ih]

/-- Dividing every candidate by `1e6` and `60` before taking the `d3` maximum
is the same as dividing the maximum afterwards. -/
lemma d3Max_map_div (l : List JNum) :
    d3Max (l.map (fun x => jdiv (jdiv x (JNum.num 1000000)) (JNum.num 60)))
      = jdiv (jdiv (d3Max l) (JNum.num 1000000)) (JNum.num 60) := by
  have h := foldl_jmaxStep_div_comm l JNum.nan
  simpa [d3Max, jdiv] using h

/-- C4: the value-scale selector takes the maximum over the batch of each
record's total production + import + storage-discharge aggregate (the CO2
aggregates in emissions mode); in emissions mode the peak is divided by `1e6`
and `60` (equivalently before or after the maximum) and the axis label is the
fixed `tCO2eq / min`, and otherwise the peak power is passed to the external
unit formatter, whose unit label becomes the axis label and whose divisor
becomes the scale factor. -/
theorem getValuesInfo_spec (h : List HistoryRecord) :
    getValuesInfo h true
        = { valueAxisLabel := "tCO2eq / min"
          , valueFactor := (scalePower (jdiv (jdiv (d3Max (h.map recordCo2Sum))
              (JNum.num 1000000)) (JNum.num 60))).formattingFactor }
      ∧ getValuesInfo h false
        = { valueAxisLabel := (scalePower (d3Max (h.map recordPowerSum))).unit
          , valueFactor := (scalePower (d3Max (h.map recordPowerSum))).formattingFactor } := by
  constructor
  · simp only [getValuesInfo, if_true]
    rw [show (fun d => jdiv (jdiv (recordCo2Sum d) (JNum.num 1000000)) (JNum.num 60))
          = (fun x => jdiv (jdiv x (JNum.num 1000000)) (JNum.num 60)) ∘ recordCo2Sum from rfl,
      ← List.map_map, d3Max_map_div]
  · simp only [getValuesInfo, Bool.false_eq_true, if_false]

/-- C5: an empty (or absent, modelled as empty) history batch makes
`prepareGraphData` return the empty result — no data, no layer keys, no fill
function, no axis label — rather than failing. -/
theorem prepareGraphData_empty (cb dbe : Bool) (mode : String) (xk : List String) :
    prepareGraphData [] cb dbe mode xk = none := rfl

/-- C8: on a non-empty batch the returned `layerKeys` are exactly the fixed
category order concatenated with the exchange-partner keys, so the length is
the sum of the two counts and every exchange key sits strictly after every
fixed category key. -/
theorem prepareGraphData_layerKeys (h : List HistoryRecord) (cb dbe : Bool) (mode : String)
    (xk : List String) (res : GraphData)
    (hres : prepareGraphData h cb dbe mode xk = some res) :
    res.layerKeys = modeOrder ++ xk
      ∧ res.layerKeys.length = modeOrder.length + xk.length := by
  cases h with
  | nil => simp [prepareGraphData] at hres
  | cons a t =>
      unfold prepareGraphData at hres
      simp only [List.isEmpty_cons, Bool.false_eq_true, if_false, Option.some.injEq] at hres
      rw [← hres]
      exact ⟨rfl, List.length_append _ _⟩

/-- The fixture batch produces a result (used to witness hypotheses about a
produced `GraphData`). -/
lemma sampleCharge_isSome :
    (prepareGraphData sampleChargeHistory false false "consumption" ["US"]).isSome = true := rfl

theorem prepareGraphData_layerKeys_witness :
    ((prepareGraphData sampleChargeHistory false false "consumption" ["US"]).get
        sampleCharge_isSome).layerKeys = modeOrder ++ ["US"] :=
  (prepareGraphData_layerKeys sampleChargeHistory false false "consumption" ["US"] _
    (Option.some_get sampleCharge_isSome).symm).1

/-- Fixture: a minimal datapoint for exercising the marker callbacks. -/
def sampleLayerRecord : LayerRecord :=
  { datetime := "", fields := fun _ => none, meta := sampleChargeRecord }

/-- C9 counterexample: contrary to the claim, a layer-hover event does not
show the tooltip (it stays hidden from the initial state), and a pointer-out
event after a marker update does not hide it (the shown payload survives). -/
theorem tooltip_claim_counterexample :
    (handleEvent false initialComponentState (GraphEvent.layerMouseMove 0 0)).tooltip = none
      ∧ (handleEvent false
          (handleEvent false initialComponentState
            (GraphEvent.markerUpdate (0, 0) sampleLayerRecord "gas"))
          GraphEvent.layerMouseOut).tooltip ≠ none := by
  constructor
  · rfl
  · simp [handleEvent, initialComponentState]

/-- C9 amended: the tooltip has exactly two states, starting hidden; a
marker-update event shows it with payload `{mode := layer key, position,
source record}` and a marker-hide event hides it; layer-hover and pointer-out
events (and background hover events) leave the tooltip unchanged — they touch
only the selected layer index and the global time index. -/
theorem tooltip_transitions (m : Bool) (s : ComponentState) (p : ℚ × ℚ) (dp : LayerRecord)
    (key : String) (t l : ℕ) :
    initialComponentState.tooltip = none
    ∧ (handleEvent m s (GraphEvent.markerUpdate p dp key)).tooltip
        = some { mode := key, position := getTooltipPosition m p, zoneData := dp.meta }
    ∧ (handleEvent m s GraphEvent.markerHide).tooltip = none
    ∧ (handleEvent m s (GraphEvent.backgroundMouseMove t)).tooltip = s.tooltip
    ∧ (handleEvent m s GraphEvent.backgroundMouseOut).tooltip = s.tooltip
    ∧ (handleEvent m s (GraphEvent.layerMouseMove t l)).tooltip = s.tooltip
    ∧ (handleEvent m s GraphEvent.layerMouseOut).tooltip = s.tooltip :=
  ⟨rfl, rfl, rfl, rfl, rfl, rfl, rfl⟩

/-- Looking up a key an object does not have yields `undefined`/`NaN`. -/
lemma jlookup_eq_nan_of_not_hasKey (l : List (String × JNum)) (k : String) :
    hasKey l k = false → jlookup l k = JNum.nan := by
  induction l with
  | nil => intro _; rfl
  | cons p t ih =>
      obtain ⟨a, x⟩ := p
      intro hk
      by_cases he : a = k
      · simp [hasKey, he] at hk
      · simp only [hasKey, he, if_false] at hk
        simp only [Bool.false_or] at hk
        simp only [jlookup, he, if_false]
        exact ih hk

/-- A finite JavaScript number is a rational. -/
lemma jIsFinite_iff (x : JNum) : jIsFinite x = true ↔ ∃ q : ℚ, x = JNum.num q := by
  cases x <;> simp [jIsFinite]

/-- C1: every numeric field of each output datapoint is the raw source value
(negated-and-floored-at-zero for storage categories, read directly for
generation categories, floored at zero for exchange partners) divided by the
scale factor and, when emissions display is active with the raw value finite
(the normalized value, a number, is never null), further multiplied by the
applicable carbon intensity over `1000` and `60` — discharge table for
storage, production table for generation, exchange table for partners.
Category fields are stated for keys not overwritten by a same-named exchange
partner; exchange fields for partner maps with pairwise-distinct keys, as
JavaScript objects have. -/
theorem prepareGraphData_field_values (h : List HistoryRecord) (cb dbe : Bool) (mode : String)
    (xk : List String) (i : ℕ) (d : HistoryRecord) (hd : h[i]? = some d) (k : String) :
    (k ∈ modeOrder → (mode = "consumption" → k ∉ d.exchange.map Prod.fst) →
       outputField h cb dbe mode xk i k
         = some (some (specCategoryField dbe (getValuesInfo h dbe).valueFactor d k)))
    ∧ (∀ v : JNum, (k, v) ∈ d.exchange → (d.exchange.map Prod.fst).Nodup →
       outputField h cb dbe "consumption" xk i k
         = some (some (specExchangeField dbe (getValuesInfo h dbe).valueFactor d k v))) := by
  have hvf := getValuesInfo_factor_pos h dbe
  constructor
  · intro hk hnx
    rw [outputField_eq h cb dbe mode xk i k d hd,
      buildFields_mode_eq dbe mode _ d k hk hnx,
      modeField_eq_specCategoryField dbe _ hvf d k]
  · intro v hkv hnd
    rw [outputField_eq h cb dbe "consumption" xk i k d hd,
      buildFields_exchange_eq dbe _ d k v hkv hnd,
      exchangeField_eq_specExchangeField dbe _ hvf d k v]

theorem prepareGraphData_field_values_witness :
    outputField sampleChargeHistory false false "consumption" ["US"] 0 "gas"
        = some (some (specCategoryField false
            (getValuesInfo sampleChargeHistory false).valueFactor sampleChargeRecord "gas"))
    ∧ outputField sampleChargeHistory false false "consumption" ["US"] 0 "US"
        = some (some (specExchangeField false
            (getValuesInfo sampleChargeHistory false).valueFactor sampleChargeRecord "US"
            (JNum.num 30))) :=
  ⟨(prepareGraphData_field_values sampleChargeHistory false false "consumption" ["US"] 0
      sampleChargeRecord rfl "gas").1 (by decide) (by decide),
   (prepareGraphData_field_values sampleChargeHistory false false "consumption" ["US"] 0
      sampleChargeRecord rfl "US").2 (JNum.num 30) (by decide) (by decide)⟩

/-- C6: for a partner key of the record's exchange map (a partner zone, so
not itself a category name; keys pairwise distinct as in a JavaScript
object), the field appears in the output datapoint exactly when the
mix-accounting mode is `consumption`; in any other mode it is absent. -/
theorem exchange_iff_consumption (h : List HistoryRecord) (cb dbe : Bool) (mode : String)
    (xk : List String) (i : ℕ) (d : HistoryRecord) (hd : h[i]? = some d)
    (k : String) (v : JNum) (hkv : (k, v) ∈ d.exchange) (hkm : k ∉ modeOrder)
    (hnd : (d.exchange.map Prod.fst).Nodup) :
    (mode = "consumption" →
       outputField h cb dbe mode xk i k
         = some (some (exchangeField dbe (getValuesInfo h dbe).valueFactor d k v)))
    ∧ (mode ≠ "consumption" → outputField h cb dbe mode xk i k = some none) := by
  constructor
  · intro hm
    subst hm
    rw [outputField_eq h cb dbe _ xk i k d hd, buildFields_exchange_eq dbe _ d k v hkv hnd]
  · intro hm
    rw [outputField_eq h cb dbe mode xk i k d hd,
      buildFields_none dbe mode _ d k hkm (fun hc => absurd hc hm)]

theorem exchange_iff_consumption_witness :
    outputField sampleChargeHistory false false "consumption" ["US"] 0 "US"
        = some (some (exchangeField false (getValuesInfo sampleChargeHistory false).valueFactor
            sampleChargeRecord "US" (JNum.num 30)))
    ∧ outputField sampleChargeHistory false false "production" ["US"] 0 "US" = some none :=
  ⟨(exchange_iff_consumption sampleChargeHistory false false "consumption" ["US"] 0
      sampleChargeRecord rfl "US" (JNum.num 30) (by decide) (by decide) (by decide)).1 rfl,
   (exchange_iff_consumption sampleChargeHistory false false "production" ["US"] 0
      sampleChargeRecord rfl "US" (JNum.num 30) (by decide) (by decide) (by decide)).2
     (by decide)⟩

/-- C7 amended: an emitted exchange field is never a negative number — it is
`Math.max(0, value / factor)`, optionally times the partner intensity over
`1000` and `60` — provided that, when emissions display is on, the partner's
intensity entry is not itself negative; with a `NaN` raw value or a missing
(`NaN`) intensity the field is `NaN`, which is neither negative nor `≥ 0`. -/
theorem exchange_fields_never_negative (h : List HistoryRecord) (cb dbe : Bool)
    (xk : List String) (i : ℕ) (d : HistoryRecord) (hd : h[i]? = some d)
    (k : String) (v : JNum) (hkv : (k, v) ∈ d.exchange)
    (hnd : (d.exchange.map Prod.fst).Nodup)
    (hci : dbe = true → jIsNeg (jlookup d.exchangeCo2Intensities k) = false) :
    outputField h cb dbe "consumption" xk i k
        = some (some (exchangeField dbe (getValuesInfo h dbe).valueFactor d k v))
      ∧ jIsNeg (exchangeField dbe (getValuesInfo h dbe).valueFactor d k v) = false := by
  refine ⟨?_, exchangeField_not_neg dbe _ (getValuesInfo_factor_pos h dbe) d k v hci⟩
  rw [outputField_eq h cb dbe "consumption" xk i k d hd,
    buildFields_exchange_eq dbe _ d k v hkv hnd]

theorem exchange_fields_never_negative_witness :
    outputField sampleChargeHistory false true "consumption" ["US"] 0 "US"
        = some (some (exchangeField true (getValuesInfo sampleChargeHistory true).valueFactor
            sampleChargeRecord "US" (JNum.num 30)))
      ∧ jIsNeg (exchangeField true (getValuesInfo sampleChargeHistory true).valueFactor
          sampleChargeRecord "US" (JNum.num 30)) = false :=
  exchange_fields_never_negative sampleChargeHistory false true ["US"] 0 sampleChargeRecord rfl
    "US" (JNum.num 30) (by decide) (by decide) (by decide)

/-- C10: when the production map is absent or lacks a recognized generation
category `k` (and no exchange partner shares that name), the output datapoint
still contains field `k`, holding `NaN` — `undefined` divided by the scale
factor — neither omitted nor defaulted to zero. -/
theorem missing_production_is_nan (h : List HistoryRecord) (cb dbe : Bool) (mode : String)
    (xk : List String) (i : ℕ) (d : HistoryRecord) (hd : h[i]? = some d) (k : String)
    (hk : k ∈ modeOrder) (hs : isStorage k = false)
    (hmiss : hasKey (d.production.getD []) k = false)
    (hnx : mode = "consumption" → k ∉ d.exchange.map Prod.fst) :
    outputField h cb dbe mode xk i k = some (some JNum.nan) := by
  rw [outputField_eq h cb dbe mode xk i k d hd, buildFields_mode_eq dbe mode _ d k hk hnx]
  have hval : modeValue d k = JNum.nan := by
    unfold modeValue
    rw [if_neg (by simp [hs])]
    exact jlookup_eq_nan_of_not_hasKey _ _ hmiss
  simp [modeField, hval, jIsFinite, jdiv]

theorem missing_production_is_nan_witness :
    outputField sampleChargeHistory false false "consumption" ["US"] 0 "wind"
        = some (some JNum.nan) :=
  missing_production_is_nan sampleChargeHistory false false "consumption" ["US"] 0
    sampleChargeRecord rfl "wind" (by decide) (by decide) (by decide) (by decide)

/-- The power peak of the charge fixture is `130`, which the modelled
formatter scales by `1`. -/
lemma sampleCharge_factor : (getValuesInfo sampleChargeHistory false).valueFactor = 1 := by
  norm_num [getValuesInfo, sampleChargeHistory, sampleChargeRecord, recordPowerSum, jadd,
    d3Max, jmaxStep, scalePower]

/-- The power peak of the discharge fixture is `130`, which the modelled
formatter scales by `1`. -/
lemma sampleDischarge_factor : (getValuesInfo sampleDischargeHistory false).valueFactor = 1 := by
  norm_num [getValuesInfo, sampleDischargeHistory, sampleDischargeRecord, sampleChargeRecord,
    recordPowerSum, jadd, d3Max, jmaxStep, scalePower]

/-- The emissions peak of the missing-intensity fixture is
`6e9 / 1e6 / 60 = 100`, which the modelled formatter scales by `1`. -/
lemma missingIntensity_factor : (getValuesInfo missingIntensityHistory true).valueFactor = 1 := by
  norm_num [getValuesInfo, missingIntensityHistory, missingIntensityRecord, recordCo2Sum, jadd,
    d3Max, jmaxStep, jdiv, scalePower]

/-- C2 counterexample: on the record with `production.gas = 100`,
`storage.battery = -40`, `exchange.US = 30`, scale factor `1`, mode
`consumption` and emissions display off, the output `battery storage` field is
`40`, not the `0` the claim predicts — and on the `+40` variant it is `0`,
not `40`: the code counts *negative* net storage as discharge. -/
theorem storage_sign_counterexample :
    outputField sampleChargeHistory false false "consumption" ["US"] 0 "battery storage"
        = some (some (JNum.num 40))
      ∧ outputField sampleDischargeHistory false false "consumption" ["US"] 0 "battery storage"
        = some (some (JNum.num 0))
      ∧ JNum.num 40 ≠ JNum.num 0 := by
  refine ⟨?_, ?_, by norm_num⟩
  · rw [outputField_eq sampleChargeHistory false false "consumption" ["US"] 0 "battery storage"
        sampleChargeRecord rfl,
      buildFields_mode_eq false "consumption" _ sampleChargeRecord "battery storage"
        (by decide) (by decide), sampleCharge_factor]
    simp [modeField, modeValue, (show isStorage "battery storage" = true from rfl),
      (show stripStorage "battery storage" = "battery" from rfl), sampleChargeRecord, jlookup,
      jmin0, jmul, jdiv, jIsFinite, jNeNull]
  · rw [outputField_eq sampleDischargeHistory false false "consumption" ["US"] 0
        "battery storage" sampleDischargeRecord rfl,
      buildFields_mode_eq false "consumption" _ sampleDischargeRecord "battery storage"
        (by decide) (by decide), sampleDischarge_factor]
    simp [modeField, modeValue, (show isStorage "battery storage" = true from rfl),
      (show stripStorage "battery storage" = "battery" from rfl), sampleDischargeRecord,
      sampleChargeRecord, jlookup, jmin0, jmul, jdiv, jIsFinite, jNeNull]

/-- C2 amended: on the `-40` record the output is `gas = 100`,
`battery storage = 40`, `US = 30`; on the `+40` record `battery storage = 0`:
under the code's convention negative net storage is discharge and contributes
its magnitude, while positive net storage contributes zero. -/
theorem storage_example_outputs :
    outputField sampleChargeHistory false false "consumption" ["US"] 0 "gas"
        = some (some (JNum.num 100))
    ∧ outputField sampleChargeHistory false false "consumption" ["US"] 0 "battery storage"
        = some (some (JNum.num 40))
    ∧ outputField sampleChargeHistory false false "consumption" ["US"] 0 "US"
        = some (some (JNum.num 30))
    ∧ outputField sampleDischargeHistory false false "consumption" ["US"] 0 "battery storage"
        = some (some (JNum.num 0)) := by
  refine ⟨?_, ?_, ?_, ?_⟩
  · rw [outputField_eq sampleChargeHistory false false "consumption" ["US"] 0 "gas"
        sampleChargeRecord rfl,
      buildFields_mode_eq false "consumption" _ sampleChargeRecord "gas"
        (by decide) (by decide), sampleCharge_factor]
    simp [modeField, modeValue, (show isStorage "gas" = false from rfl), sampleChargeRecord,
      jlookup, jdiv, jIsFinite, jNeNull]
  · rw [outputField_eq sampleChargeHistory false false "consumption" ["US"] 0 "battery storage"
        sampleChargeRecord rfl,
      buildFields_mode_eq false "consumption" _ sampleChargeRecord "battery storage"
        (by decide) (by decide), sampleCharge_factor]
    simp [modeField, modeValue, (show isStorage "battery storage" = true from rfl),
      (show stripStorage "battery storage" = "battery" from rfl), sampleChargeRecord, jlookup,
      jmin0, jmul, jdiv, jIsFinite, jNeNull]
  · rw [outputField_eq sampleChargeHistory false false "consumption" ["US"] 0 "US"
        sampleChargeRecord rfl,
      buildFields_exchange_eq false _ sampleChargeRecord "US" (JNum.num 30)
        (by decide) (by decide), sampleCharge_factor]
    simp [exchangeField, jmax0, jdiv, jIsFinite, jNeNull]
  · rw [outputField_eq sampleDischargeHistory false false "consumption" ["US"] 0
        "battery storage" sampleDischargeRecord rfl,
      buildFields_mode_eq false "consumption" _ sampleDischargeRecord "battery storage"
        (by decide) (by decide), sampleDischarge_factor]
    simp [modeField, modeValue, (show isStorage "battery storage" = true from rfl),
      (show stripStorage "battery storage" = "battery" from rfl), sampleDischargeRecord,
      sampleChargeRecord, jlookup, jmin0, jmul, jdiv, jIsFinite, jNeNull]

/-- C3 counterexample: with emissions display on, a finite
`production.gas = 100`, scale factor `1` and the `gas` entry missing from the
production-intensity table, the output `gas` field is `NaN` — the conversion
is *not* skipped and the field is not left in power units (`100 / 1`). -/
theorem missing_intensity_counterexample :
    outputField missingIntensityHistory false true "production" [] 0 "gas"
        = some (some JNum.nan)
      ∧ JNum.nan ≠ jdiv (JNum.num 100) (JNum.num 1) := by
  constructor
  · rw [outputField_eq missingIntensityHistory false true "production" [] 0 "gas"
        missingIntensityRecord rfl,
      buildFields_mode_eq true "production" _ missingIntensityRecord "gas"
        (by decide) (by decide), missingIntensity_factor]
    simp [modeField, modeValue, (show isStorage "gas" = false from rfl),
      missingIntensityRecord, jlookup, jdiv, jmul, jIsFinite, jNeNull]
  · simp [jdiv]

/-- C3 amended: when the raw value (after the storage negate-and-floor) is
non-finite, the emissions conversion is skipped and the field is left in
power units — divided by the scale factor only (floored at zero for exchange
partners) — without an error; but a missing per-category or per-partner
intensity does *not* skip the conversion: with emissions display on and a
finite raw value, the field is multiplied by the missing (`NaN`) intensity
and becomes `NaN` instead of staying in power units. -/
theorem conversion_skip_behaviour (h : List HistoryRecord) (cb : Bool) (mode : String)
    (xk : List String) (i : ℕ) (d : HistoryRecord) (hd : h[i]? = some d) (k : String) :
    (∀ dbe : Bool, k ∈ modeOrder → (mode = "consumption" → k ∉ d.exchange.map Prod.fst) →
        jIsFinite (modeValue d k) = false →
        outputField h cb dbe mode xk i k
          = some (some (jdiv (modeValue d k) (JNum.num (getValuesInfo h dbe).valueFactor))))
    ∧ (k ∈ modeOrder → (mode = "consumption" → k ∉ d.exchange.map Prod.fst) →
        jIsFinite (modeValue d k) = true → categoryIntensity d k = JNum.nan →
        outputField h cb true mode xk i k = some (some JNum.nan))
    ∧ (∀ (dbe : Bool) (v : JNum), (k, v) ∈ d.exchange → (d.exchange.map Prod.fst).Nodup →
        jIsFinite v = false →
        outputField h cb dbe "consumption" xk i k
          = some (some (jmax0 (jdiv v (JNum.num (getValuesInfo h dbe).valueFactor)))))
    ∧ (∀ v : JNum, (k, v) ∈ d.exchange → (d.exchange.map Prod.fst).Nodup →
        jIsFinite v = true → jlookup d.exchangeCo2Intensities k = JNum.nan →
        outputField h cb true "consumption" xk i k = some (some JNum.nan)) := by
  refine ⟨?_, ?_, ?_, ?_⟩
  · intro dbe hk hnx hfin
    rw [outputField_eq h cb dbe mode xk i k d hd, buildFields_mode_eq dbe mode _ d k hk hnx]
    simp [modeField, hfin]
  · intro hk hnx hfin hint
    have hvf := getValuesInfo_factor_pos h true
    rw [outputField_eq h cb true mode xk i k d hd, buildFields_mode_eq true mode _ d k hk hnx,
      modeField_eq_specCategoryField true _ hvf d k]
    obtain ⟨q, hq⟩ := (jIsFinite_iff _).mp hfin
    unfold specCategoryField
    rw [show (if isStorage k then jlookup d.dischargeCo2Intensities (stripStorage k)
          else jlookup d.productionCo2Intensities k) = categoryIntensity d k from rfl, hint]
    simp [hq, jIsFinite, jdiv, jmul, hvf.ne']
  · intro dbe v hkv hnd hfin
    rw [outputField_eq h cb dbe "consumption" xk i k d hd,
      buildFields_exchange_eq dbe _ d k v hkv hnd]
    simp [exchangeField, hfin]
  · intro v hkv hnd hfin hint
    have hvf := getValuesInfo_factor_pos h true
    rw [outputField_eq h cb true "consumption" xk i k d hd,
      buildFields_exchange_eq true _ d k v hkv hnd]
    obtain ⟨q, hq⟩ := (jIsFinite_iff _).mp hfin
    simp [exchangeField, hq, hint, jIsFinite, jNeNull, jdiv, jmax0, jmul, hvf.ne']

theorem conversion_skip_behaviour_witness :
    outputField missingIntensityHistory false true "consumption" ["US", "NO"] 0 "coal"
        = some (some (jdiv (modeValue missingIntensityRecord "coal")
            (JNum.num (getValuesInfo missingIntensityHistory true).valueFactor)))
    ∧ outputField missingIntensityHistory false true "consumption" ["US", "NO"] 0 "gas"
        = some (some JNum.nan)
    ∧ outputField missingIntensityHistory false true "consumption" ["US", "NO"] 0 "NO"
        = some (some (jmax0 (jdiv JNum.nan
            (JNum.num (getValuesInfo missingIntensityHistory true).valueFactor))))
    ∧ outputField missingIntensityHistory false true "consumption" ["US", "NO"] 0 "US"
        = some (some JNum.nan) :=
  ⟨(conversion_skip_behaviour missingIntensityHistory false "consumption" ["US", "NO"] 0
      missingIntensityRecord rfl "coal").1 true (by decide) (by decide) (by decide),
   (conversion_skip_behaviour missingIntensityHistory false "consumption" ["US", "NO"] 0
      missingIntensityRecord rfl "gas").2.1 (by decide) (by decide) (by decide) (by decide),
   (conversion_skip_behaviour missingIntensityHistory false "consumption" ["US", "NO"] 0
      missingIntensityRecord rfl "NO").2.2.1 true JNum.nan (by decide) (by decide) rfl,
   (conversion_skip_behaviour missingIntensityHistory false "consumption" ["US", "NO"] 0
      missingIntensityRecord rfl "US").2.2.2 (JNum.num 30) (by decide) (by decide)
     (by decide) rfl⟩

/-- C7 counterexample: with emissions display on and the partner `US` missing
from the exchange-intensity table, the emitted `US` exchange field is `NaN`,
and `NaN >= 0` is false in JavaScript — so the field is not `≥ 0` as the
claim states. -/
theorem exchange_negative_counterexample :
    outputField missingIntensityHistory false true "consumption" ["US", "NO"] 0 "US"
        = some (some JNum.nan) ∧ jge0 JNum.nan = false := by
  refine ⟨?_, rfl⟩
  rw [outputField_eq missingIntensityHistory false true "consumption" ["US", "NO"] 0 "US"
      missingIntensityRecord rfl,
    buildFields_exchange_eq true _ missingIntensityRecord "US" (JNum.num 30)
      (by decide) (by decide), missingIntensity_factor]
  simp [exchangeField, missingIntensityRecord, jlookup, jmax0, jdiv, jmul, jIsFinite, jNeNull]
